import Mathlib

/-!
Shallow embedding of the control-transfer engine, standard-request handler
and class dispatch of the `usb-device` crate (src/device.rs,
src/device_standard_control.rs, src/class.rs).  Machine integers are
modelled as `Nat` with explicit `% 256` where the source casts to `u8`;
bus and class side effects are made observable as explicit event lists.
-/

namespace Usb

/-- Transfer direction of a control request (src: `control::Direction`). -/
inductive Direction
  | hostToDevice
  | deviceToHost
deriving DecidableEq, Repr

/-- Request type of a control request (src: `control::RequestType`). -/
inductive RequestType
  | standard
  | classReq
  | vendor
  | reserved
deriving DecidableEq, Repr

/-- Recipient of a control request (src: `control::Recipient`). -/
inductive Recipient
  | device
  | interface
  | endpoint
  | other
deriving DecidableEq, Repr

/-- A parsed SETUP request (src: `control::Request`; the raw-byte parser
`control_request.rs` is not among the sources, so the engine is modelled
from the parsed record onward, as the spec's data model describes it). -/
structure Request where
  direction : Direction
  requestType : RequestType
  recipient : Recipient
  request : Nat
  value : Nat
  index : Nat
  length : Nat
deriving DecidableEq, Repr

/-- Control transfer engine state (src: `device.rs` `enum ControlState`). -/
inductive ControlState
  | idle
  | dataIn
  | dataInZlp
  | dataInLast
  | statusOut
  | dataOut
  | statusIn
  | error
deriving DecidableEq, Repr

/-- Device state (src: `device.rs` `enum UsbDeviceState`). -/
inductive UsbDeviceState
  | default
  | addressed
  | configured
deriving DecidableEq, Repr

/-- Result of a class/standard handler for device-to-host requests
(src: `device.rs` `enum ControlInResult`). -/
inductive ControlInRes
  | ignore
  | ok (count : Nat)
  | err
deriving DecidableEq, Repr

/-- Result of a class/standard handler for host-to-device requests
(src: `device.rs` `enum ControlOutResult`). -/
inductive ControlOutRes
  | ignore
  | ok
  | err
deriving DecidableEq, Repr

/-- Observable operation performed on the bus.  `writeIn data` is a write
to the endpoint-zero IN endpoint, `setStalled addr b` is
`bus.set_stalled(addr, b)` (endpoint zero OUT = address 0, IN = 0x80),
`setDeviceAddress` and `busReset` are the corresponding bus calls. -/
inductive BusOp
  | writeIn (data : List Nat)
  | setStalled (addr : Nat) (stalled : Bool)
  | setDeviceAddress (addr : Nat)
  | busReset
deriving DecidableEq, Repr

/-- Observable invocation of a class callback (or of the standard-request
handler), tagged by the class id. -/
inductive ClassCall
  | controlIn (cid : Nat)
  | controlOut (cid : Nat)
  | resetCall (cid : Nat)
  | endpointOut (cid : Nat) (addr : Nat)
  | endpointInComplete (cid : Nat) (addr : Nat)
  | standardControlIn
  | standardControlOut
deriving DecidableEq, Repr

/-- A registered class (src: `class.rs` trait `UsbClass`).  `controlIn`
receives the request and the 128-byte control buffer and returns its
result together with the (possibly mutated) buffer; `controlOut` receives
the request and the data stage contents.  `cfgDescriptors`/`cfgInterfaces`
model `get_configuration_descriptors`: modelled from the spec ("appends
interface descriptors, endpoint descriptors, and class-specific extras"
while the writer "tracks interface count"), since `descriptor.rs` is not
among the sources.  `getString` models `get_string`. -/
structure UsbClass where
  cid : Nat
  controlIn : Request → List Nat → ControlInRes × List Nat
  controlOut : Request → List Nat → ControlOutRes
  cfgDescriptors : List Nat
  cfgInterfaces : Nat
  getString : Nat → Nat → Option (List Nat)

/-- Immutable device identity (src: `device.rs` `struct UsbDeviceInfo`;
strings are modelled as lists of UTF-16 code units). -/
structure UsbDeviceInfo where
  deviceClass : Nat
  deviceSubClass : Nat
  deviceProtocol : Nat
  maxPacketSize0 : Nat
  vendorId : Nat
  productId : Nat
  deviceRelease : Nat
  manufacturer : List Nat
  product : List Nat
  serialNumber : List Nat
  selfPowered : Bool
  remoteWakeup : Bool
  maxPower : Nat

/-- The in-flight control transfer record (src: `device.rs` `struct Control`). -/
@[ext]
structure Control where
  state : ControlState
  request : Option Request
  buf : List Nat
  i : Nat
  len : Nat

/-- The composite device (src: `device.rs` `struct UsbDevice`).  The bus is
modelled by the event log plus the `busStalled` observation used by
GET_STATUS(Endpoint); `remoteWakeupEnabled` and `selfPoweredRt` are the
runtime flags read and written by the standard-request handler. -/
@[ext]
structure Dev where
  info : UsbDeviceInfo
  classes : List UsbClass
  control : Control
  deviceState : UsbDeviceState
  pendingAddress : Nat
  remoteWakeupEnabled : Bool
  selfPoweredRt : Bool
  busStalled : Nat → Bool

/-- Snapshot of pending bus conditions (src: `bus::PollResult` as consumed
by `UsbDevice::poll`). -/
structure PollResult where
  reset : Bool
  setup : Bool
  epOut : Nat
  epInComplete : Nat

/-- src: `device.rs` `set_control_error`: enter the Error state and stall
both endpoint-zero directions. -/
def setControlError (d : Dev) : Dev × List BusOp :=
  ({d with control := {d.control with state := .error}},
   [.setStalled 0 true, .setStalled 0x80 true])

/-- src: `device.rs` `write_control_in_chunk`: write the next chunk of at
most `max_packet_size_0` bytes; when the transfer is finished go to
`DataInZlp` if the final chunk was full-sized, else to `DataInLast`. -/
def writeControlInChunk (d : Dev) : Dev × BusOp :=
  let c := d.control
  let count := min (c.len - c.i) d.info.maxPacketSize0
  let data := (c.buf.drop c.i).take count
  let i2 := c.i + count
  let st :=
    if i2 ≥ c.len then
      if count = d.info.maxPacketSize0 then ControlState.dataInZlp
      else ControlState.dataInLast
    else c.state
  ({d with control := {c with i := i2, state := st}}, .writeIn data)

/-- src: `device.rs` `handle_control_setup`, the class traversal for
device-to-host requests: offer the request to each class in registration
order, stopping at the first result other than `Ignore`; the buffer is
threaded through every invoked class. -/
def controlInLoop : List UsbClass → Request → List Nat →
    ControlInRes × List Nat × List ClassCall
  | [], _, buf => (.ignore, buf, [])
  | c :: rest, req, buf =>
    match c.controlIn req buf with
    | (res, buf1) =>
      if res = .ignore then
        match controlInLoop rest req buf1 with
        | (res2, buf2, calls) => (res2, buf2, .controlIn c.cid :: calls)
      else (res, buf1, [.controlIn c.cid])

/-- src: `device.rs` `complete_control_out`, the class traversal for
host-to-device requests (same short-circuit discipline). -/
def controlOutLoop : List UsbClass → Request → List Nat →
    ControlOutRes × List ClassCall
  | [], _, _ => (.ignore, [])
  | c :: rest, req, data =>
    let r := c.controlOut req data
    if r = .ignore then
      match controlOutLoop rest req data with
      | (r2, calls) => (r2, .controlOut c.cid :: calls)
    else (r, [.controlOut c.cid])

/-- Modelled from the spec: the descriptor emitter (`descriptor.rs` is not
among the sources).  It "appends standard and class-specific descriptor
bytes into a caller-supplied buffer; tracks interface count and supports
in-place patching of length/count placeholders"; `count` is the number of
bytes emitted so far. -/
structure DescriptorWriter where
  buf : List Nat
  numInterfaces : Nat

/-- Modelled from the spec: `DescriptorWriter::write` emits a descriptor
as a length byte (data length plus the two header bytes), the descriptor
type byte, then the payload ("wire formats follow USB 2.0 chapter 9
byte-for-byte"). -/
def DescriptorWriter.write (w : DescriptorWriter) (dtype : Nat)
    (data : List Nat) : DescriptorWriter :=
  {w with buf := w.buf ++ (data.length + 2) % 256 :: dtype % 256 :: data}

/-- Modelled from the spec: bytes emitted so far. -/
def DescriptorWriter.count (w : DescriptorWriter) : Nat := w.buf.length

/-- Modelled from the spec: in-place patching of placeholder bytes at a
given position. -/
def DescriptorWriter.insert (w : DescriptorWriter) (pos : Nat)
    (data : List Nat) : DescriptorWriter :=
  {w with buf := w.buf.take pos ++ data ++ w.buf.drop (pos + data.length)}

/-- UTF-16LE bytes of a string given as code units (used by
`write_string`; modelled from the spec's wire-format rule). -/
def stringUtf16Bytes (s : List Nat) : List Nat :=
  s.flatMap (fun ch => [ch % 256, ch / 256 % 256])

/-- Modelled from the spec: `DescriptorWriter::write_string` emits a
STRING descriptor (type 3) whose payload is the UTF-16LE string. -/
def DescriptorWriter.writeString (w : DescriptorWriter) (s : List Nat) :
    DescriptorWriter :=
  w.write 3 (stringUtf16Bytes s)

/-- src: `device_standard_control.rs`: one class's
`get_configuration_descriptors(&mut writer)` contribution, modelled from
the spec as appending its descriptor bytes and bumping the interface
count. -/
def applyClassConfig (w : DescriptorWriter) (c : UsbClass) : DescriptorWriter :=
  ⟨w.buf ++ c.cfgDescriptors, w.numInterfaces + c.cfgInterfaces⟩

/-- src: `device_standard_control.rs`, the bmAttributes byte of the
configuration descriptor: bit 7 always set, bit 6 from the self-powered
flag, bit 5 from the remote-wakeup-supported flag. -/
def bmAttributes (info : UsbDeviceInfo) : Nat :=
  0x80 ||| (if info.selfPowered then 0x40 else 0)
       ||| (if info.remoteWakeup then 0x20 else 0)

/-- src: `device_standard_control.rs` `handle_get_descriptor`.  Descriptor
type and index are the high and low byte of the request value; descriptor
type codes (DEVICE=1, CONFIGURATION=2, STRING=3) and the ENGLISH_US
language id 0x0409 are modelled from the spec since `descriptor.rs` is
not among the sources.  Returns the handler result together with the
control buffer after the writer has overwritten its prefix. -/
def handleGetDescriptor (d : Dev) (req : Request) (buf : List Nat) :
    ControlInRes × List Nat :=
  let dtype := req.value / 256 % 256
  let index := req.value % 256
  let w0 : DescriptorWriter := ⟨[], 0⟩
  let finish : DescriptorWriter → ControlInRes × List Nat := fun w =>
    (.ok w.count, w.buf ++ buf.drop w.buf.length)
  if dtype = 1 then
    finish (w0.write 1
      [0x00, 0x02,
       d.info.deviceClass, d.info.deviceSubClass, d.info.deviceProtocol,
       d.info.maxPacketSize0,
       d.info.vendorId % 256, d.info.vendorId / 256 % 256,
       d.info.productId % 256, d.info.productId / 256 % 256,
       d.info.deviceRelease % 256, d.info.deviceRelease / 256 % 256,
       1, 2, 3, 1])
  else if dtype = 2 then
    let w := w0.write 2
      [0, 0, 0, 1, 0, bmAttributes d.info, d.info.maxPower]
    let w := d.classes.foldl applyClassConfig w
    let totalLength := w.count
    let numInterfaces := w.numInterfaces
    let w := w.insert 2 [totalLength % 256, totalLength / 256 % 256]
    let w := w.insert 4 [numInterfaces % 256]
    finish w
  else if dtype = 3 then
    if index = 0 then
      finish (w0.write 3 [0x09, 0x04])
    else
      let s :=
        if index = 1 then some d.info.manufacturer
        else if index = 2 then some d.info.product
        else if index = 3 then some d.info.serialNumber
        else (d.classes.filterMap (fun c => c.getString index req.index)).head?
      match s with
      | some str => finish (w0.writeString str)
      | none => (.err, buf)
  else (.err, buf)

/-- src: `device_standard_control.rs` `standard_control_in`.  Standard
request codes (GET_STATUS=0, GET_DESCRIPTOR=6, GET_CONFIGURATION=8,
GET_INTERFACE=10) are modelled from the spec's chapter-9 wire format since
the `control` module is not among the sources. -/
def standardControlIn (d : Dev) (req : Request) (buf : List Nat) :
    ControlInRes × List Nat :=
  if req.recipient = .device ∧ req.request = 0 then
    let status : Nat := (if d.selfPoweredRt then 1 else 0)
      ||| (if d.remoteWakeupEnabled then 2 else 0)
    (.ok 2, (buf.set 0 (status % 256)).set 1 (status / 256 % 256))
  else if req.recipient = .interface ∧ req.request = 0 then
    (.ok 2, (buf.set 0 0).set 1 0)
  else if req.recipient = .endpoint ∧ req.request = 0 then
    let status : Nat := if d.busStalled (req.index % 256 &&& 0x8f) then 1 else 0
    (.ok 2, (buf.set 0 (status % 256)).set 1 (status / 256 % 256))
  else if req.recipient = .device ∧ req.request = 6 then
    handleGetDescriptor d req buf
  else if req.recipient = .device ∧ req.request = 8 then
    (.ok 1, buf.set 0 1)
  else if req.recipient = .interface ∧ req.request = 10 then
    (.ok 1, buf.set 0 0)
  else (.err, buf)

/-- src: `device_standard_control.rs` `standard_control_out`.  Standard
request codes (CLEAR_FEATURE=1, SET_FEATURE=3, SET_ADDRESS=5,
SET_CONFIGURATION=9, SET_INTERFACE=11) are modelled from the spec's
chapter-9 wire format since the `control` module is not among the
sources. -/
def standardControlOut (d : Dev) (req : Request) :
    Dev × ControlOutRes × List BusOp :=
  if req.recipient = .device ∧ req.request = 1 ∧ req.value = 1 then
    ({d with remoteWakeupEnabled := false}, .ok, [])
  else if req.recipient = .endpoint ∧ req.request = 1 ∧ req.value = 0 then
    (d, .ok, [.setStalled (req.index % 256 &&& 0x8f) false])
  else if req.recipient = .device ∧ req.request = 3 ∧ req.value = 1 then
    ({d with remoteWakeupEnabled := true}, .ok, [])
  else if req.recipient = .endpoint ∧ req.request = 3 ∧ req.value = 0 then
    (d, .ok, [.setStalled (req.index % 256 &&& 0x8f) true])
  else if req.recipient = .device ∧ req.request = 5 ∧
      1 ≤ req.value ∧ req.value ≤ 127 then
    ({d with pendingAddress := req.value % 256}, .ok, [])
  else if req.recipient = .device ∧ req.request = 9 ∧ req.value = 1 then
    ({d with deviceState := .configured}, .ok, [])
  else if req.recipient = .interface ∧ req.request = 11 ∧ req.value = 0 then
    (d, .ok, [])
  else (d, .err, [])

/-- src: `device.rs` `handle_control_setup` (device-to-host part): class
traversal followed by the standard-request fallback when every class
ignored the request and the request type is Standard. -/
def controlInDispatch (d : Dev) (req : Request) :
    ControlInRes × List Nat × List ClassCall :=
  match controlInLoop d.classes req d.control.buf with
  | (res, buf1, calls) =>
    if res = .ignore ∧ req.requestType = .standard then
      match standardControlIn d req buf1 with
      | (res2, buf2) => (res2, buf2, calls ++ [.standardControlIn])
    else (res, buf1, calls)

/-- src: `device.rs` `complete_control_out` dispatch part: class traversal
followed by the standard-request fallback. -/
def controlOutDispatch (d : Dev) (req : Request) (data : List Nat) :
    Dev × ControlOutRes × List BusOp × List ClassCall :=
  match controlOutLoop d.classes req data with
  | (res, calls) =>
    if res = .ignore ∧ req.requestType = .standard then
      match standardControlOut d req with
      | (d2, res2, ops) => (d2, res2, ops, calls ++ [.standardControlOut])
    else (d, res, [], calls)

/-- src: `device.rs` `complete_control_out`: take the latched request
(`None` means the unreachable `unwrap` panic, modelled as `none`), run the
dispatch over the received data, and either send the zero-length IN status
packet and await its completion, or fail with a protocol stall. -/
def completeControlOut (d : Dev) : Option (Dev × List BusOp × List ClassCall) :=
  match d.control.request with
  | none => none
  | some req =>
    let d := {d with control := {d.control with request := none}}
    let data := d.control.buf.take d.control.len
    match controlOutDispatch d req data with
    | (d2, res, ops, calls) =>
      if res = .ok then
        some ({d2 with control := {d2.control with state := .statusIn}},
              ops ++ [.writeIn []], calls)
      else
        match setControlError d2 with
        | (d3, ops2) => some (d3, ops ++ ops2, calls)

/-- src: `device.rs` `handle_control_setup` (from the parsed request
onward; the raw SETUP read and parse are not among the sources). -/
def handleControlSetup (d : Dev) (req : Request) :
    Option (Dev × List BusOp × List ClassCall) :=
  let d := {d with control := {d.control with request := some req}}
  match req.direction with
  | .hostToDevice =>
    if req.length > 0 then
      if req.length > d.control.buf.length then
        match setControlError d with
        | (d2, ops) => some (d2, ops, [])
      else
        some ({d with control :=
                {d.control with i := 0, len := req.length, state := .dataOut}},
              [], [])
    else
      completeControlOut {d with control := {d.control with len := 0}}
  | .deviceToHost =>
    match controlInDispatch d req with
    | (res, buf1, calls) =>
      let d := {d with control := {d.control with buf := buf1}}
      match res with
      | .ok count =>
        let d := {d with control :=
          {d.control with i := 0, len := min count req.length, state := .dataIn}}
        match writeControlInChunk d with
        | (d2, op) => some (d2, [op], calls)
      | _ =>
        match setControlError d with
        | (d2, ops) => some (d2, ops, calls)

/-- src: `device.rs` `handle_control_out`; `pkt` is the received OUT
packet.  `none` models the `unwrap` panic on a non-empty status packet. -/
def handleControlOut (d : Dev) (pkt : List Nat) :
    Option (Dev × List BusOp × List ClassCall) :=
  match d.control.state with
  | .dataOut =>
    if d.control.i + pkt.length > d.control.buf.length then
      match setControlError d with
      | (d2, ops) => some (d2, ops, [])
    else
      let c := d.control
      let buf2 := c.buf.take c.i ++ pkt ++ c.buf.drop (c.i + pkt.length)
      let d := {d with control := {c with buf := buf2, i := c.i + pkt.length}}
      if d.control.i ≥ d.control.len then completeControlOut d
      else some (d, [], [])
  | .statusOut =>
    if pkt.length = 0 then
      some ({d with control := {d.control with state := .idle}}, [], [])
    else none
  | _ =>
    match setControlError d with
    | (d2, ops) => some (d2, ops, [])

/-- src: `device.rs` `handle_control_in_complete`. -/
def handleControlInComplete (d : Dev) : Dev × List BusOp × List ClassCall :=
  match d.control.state with
  | .dataIn =>
    match writeControlInChunk d with
    | (d2, op) => (d2, [op], [])
  | .dataInZlp =>
    ({d with control := {d.control with state := .dataInLast}},
     [.writeIn []], [])
  | .dataInLast =>
    ({d with control := {d.control with state := .statusOut}},
     [.setStalled 0 false], [])
  | .statusIn =>
    let addr := d.pendingAddress
    if addr ≠ 0 then
      ({d with pendingAddress := 0, deviceState := .addressed,
               control := {d.control with state := .idle}},
       [.setDeviceAddress addr], [])
    else
      ({d with pendingAddress := 0,
               control := {d.control with state := .idle}}, [], [])
  | _ =>
    match setControlError d with
    | (d2, ops) => (d2, ops, [])

/-- src: `device.rs` `reset`: reset the bus, return to the Default device
state, idle the control engine, clear the pending address and notify every
class in registration order. -/
def resetDev (d : Dev) : Dev × List BusOp × List ClassCall :=
  ({d with deviceState := .default,
           control := {d.control with state := .idle},
           pendingAddress := 0},
   [.busReset],
   d.classes.map (fun c => .resetCall c.cid))

/-- src: `device.rs` `poll` non-zero endpoint loop: for each endpoint index
1..15, broadcast OUT events via `endpoint_out(i)` and IN-complete events
via `endpoint_out(i | 0x80)` (the source calls `endpoint_out`, not
`endpoint_in_complete`, for IN completions). -/
def pollEpEvents (d : Dev) (pr : PollResult) : List ClassCall :=
  (List.range' 1 15).flatMap (fun i =>
    (if pr.epOut &&& (1 <<< i) ≠ 0 then
       d.classes.map (fun c => .endpointOut c.cid i)
     else [])
    ++ (if pr.epInComplete &&& (1 <<< i) ≠ 0 then
          d.classes.map (fun c => .endpointOut c.cid (i ||| 0x80))
        else []))

/-- src: `device.rs` `poll`; `req` is the parsed SETUP packet and `pkt`
the endpoint-zero OUT packet, when the corresponding events are set. -/
def poll (d : Dev) (pr : PollResult) (req : Request) (pkt : List Nat) :
    Option (Dev × List BusOp × List ClassCall) :=
  if pr.reset then some (resetDev d)
  else
    let s1 :=
      if pr.setup then handleControlSetup d req
      else if pr.epOut &&& 1 ≠ 0 then handleControlOut d pkt
      else some (d, [], [])
    match s1 with
    | none => none
    | some (d1, ops1, calls1) =>
      let s2 :=
        if pr.epInComplete &&& 1 ≠ 0 then handleControlInComplete d1
        else (d1, [], [])
      match s2 with
      | (d2, ops2, calls2) =>
        some (d2, ops1 ++ ops2, calls1 ++ calls2 ++ pollEpEvents d2 pr)

/-- Drive `handle_control_in_complete` repeatedly (fuel-bounded) until the
engine reaches `StatusOut`, collecting the bus operations and the control
states visited after each step. -/
def runDataIn : Nat → Dev → Dev × List BusOp × List ControlState
  | 0, d => (d, [], [])
  | n + 1, d =>
    if d.control.state = .statusOut then (d, [], [])
    else
      match handleControlInComplete d with
      | (d1, ops, _) =>
        match runDataIn n d1 with
        | (d2, ops2, tr) => (d2, ops ++ ops2, d1.control.state :: tr)

/-- The data stage from a `DataIn` device with a given fuel: the first
chunk written by `handle_control_setup` followed by the
IN-complete-driven continuation, collecting bus operations and the
control states visited (the state after the initial chunk included). -/
def stageFrom (f : Nat) (d : Dev) : Dev × List BusOp × List ControlState :=
  match writeControlInChunk d with
  | (d1, op) =>
    match runDataIn f d1 with
    | (d2, ops2, tr) => (d2, op :: ops2, d1.control.state :: tr)

/-- The whole device-to-host data stage, with enough fuel to reach
`StatusOut`. -/
def controlInDataStage (d : Dev) : Dev × List BusOp × List ControlState :=
  stageFrom (d.control.len + 3) d

/-- Specification-side definition: split a byte sequence into packets of
`M` bytes; the final packet is shorter (possibly empty for an empty
sequence).  Follows the spec's chunking rule: "the engine emits packets of
exactly `max_packet_size_0` bytes until fewer than that remain". -/
def splitIntoChunks (M : Nat) (xs : List Nat) : List (List Nat) :=
  if _h : M = 0 ∨ xs.length ≤ M then [xs]
  else xs.take M :: splitIntoChunks M (xs.drop M)
termination_by xs.length
decreasing_by simp; omega

/-- Specification-side definition: the packet sequence the engine is
expected to emit for a data stage of `len` bytes taken from `buf` with
max packet size `M` — the chunks of the payload, followed by a
zero-length packet exactly when `len` is a positive multiple of `M`. -/
def dataInPackets (M len : Nat) (buf : List Nat) : List (List Nat) :=
  splitIntoChunks M (buf.take len) ++
    if len % M = 0 ∧ 0 < len then [[]] else []

/-- The device as it stands at the end of a completed data stage. -/
def dataStageEnd (d : Dev) : Dev :=
  {d with control := {d.control with state := .statusOut, i := d.control.len}}

/-- Total number of data bytes sent to the host in a list of bus
operations. -/
def opsBytesOut (ops : List BusOp) : Nat :=
  (ops.map (fun o => match o with | .writeIn data => data.length | _ => 0)).sum

/-- The device as `handle_control_setup` leaves it on entering `DataIn`:
request latched, buffer as returned by the dispatch, `i = 0`,
`len = min count req.length`. -/
def setupDev (d : Dev) (req : Request) (count : Nat) (buf1 : List Nat) : Dev :=
  {d with control := {d.control with
      request := some req
      buf := buf1
      i := 0
      len := min count req.length
      state := .dataIn}}

/-- A class that ignores every request (for concrete instances). -/
def passiveClass (n : Nat) : UsbClass :=
  { cid := n,
    controlIn := fun _ buf => (.ignore, buf),
    controlOut := fun _ _ => .ignore,
    cfgDescriptors := [], cfgInterfaces := 0,
    getString := fun _ _ => none }

/-- A class that accepts device-to-host requests with a 4-byte payload
(for concrete instances). -/
def acceptInClass (n : Nat) : UsbClass :=
  { cid := n,
    controlIn := fun _ buf =>
      (.ok 4, 0xde :: 0xad :: 0xbe :: 0xef :: buf.drop 4),
    controlOut := fun _ _ => .ignore,
    cfgDescriptors := [], cfgInterfaces := 0,
    getString := fun _ _ => none }

/-- A class that rejects every device-to-host request (for concrete
instances). -/
def errInClass (n : Nat) : UsbClass :=
  { cid := n,
    controlIn := fun _ buf => (.err, buf),
    controlOut := fun _ _ => .ignore,
    cfgDescriptors := [], cfgInterfaces := 0,
    getString := fun _ _ => none }

/-- A class that accepts every host-to-device request (for concrete
instances). -/
def acceptOutClass (n : Nat) : UsbClass :=
  { cid := n,
    controlIn := fun _ buf => (.ignore, buf),
    controlOut := fun _ _ => .ok,
    cfgDescriptors := [], cfgInterfaces := 0,
    getString := fun _ _ => none }

/-- A class that rejects every host-to-device request (for concrete
instances). -/
def errOutClass (n : Nat) : UsbClass :=
  { cid := n,
    controlIn := fun _ buf => (.ignore, buf),
    controlOut := fun _ _ => .err,
    cfgDescriptors := [], cfgInterfaces := 0,
    getString := fun _ _ => none }

/-- A class contributing one interface and a 9-byte interface descriptor
(for concrete instances). -/
def cfgClass (n : Nat) : UsbClass :=
  { cid := n,
    controlIn := fun _ buf => (.ignore, buf),
    controlOut := fun _ _ => .ignore,
    cfgDescriptors := [9, 4, 0, 0, 0, 0xff, 0, 0, 0], cfgInterfaces := 1,
    getString := fun _ _ => none }

/-- Concrete device identity for instances. -/
def demoInfo : UsbDeviceInfo :=
  { deviceClass := 0, deviceSubClass := 0, deviceProtocol := 0,
    maxPacketSize0 := 8, vendorId := 0x5824, productId := 0x27dd,
    deviceRelease := 0x0010, manufacturer := [], product := [],
    serialNumber := [], selfPowered := false, remoteWakeup := false,
    maxPower := 50 }

/-- A freshly built device with the given classes. -/
def demoDev (classes : List UsbClass) : Dev :=
  { info := demoInfo, classes := classes,
    control := { state := .idle, request := none,
                 buf := List.replicate 128 0, i := 0, len := 0 },
    deviceState := .default, pendingAddress := 0,
    remoteWakeupEnabled := false, selfPoweredRt := false,
    busStalled := fun _ => false }

/-- Device at the start of a 4-byte data stage (max packet size 8). -/
def c1WitDev : Dev :=
  {demoDev [] with control :=
    { state := .dataIn, request := none, buf := List.replicate 128 3,
      i := 0, len := 4 }}

/-- Device at the start of an 8-byte data stage whose latched request
also asked for exactly 8 bytes (max packet size 8). -/
def cexC1Dev : Dev :=
  {demoDev [] with control :=
    { state := .dataIn,
      request := some ⟨.deviceToHost, .vendor, .device, 0, 0, 0, 8⟩,
      buf := List.replicate 128 5, i := 0, len := 8 }}

/-- A device with one registered class, for the endpoint-event poll
instance. -/
def c7Dev : Dev := demoDev [passiveClass 3]

/-- A fresh device holding a latched host-to-device vendor request with
an empty data stage, for the host-to-device error-path instance. -/
def c3OutDev : Dev :=
  {demoDev [] with control :=
    { state := .idle,
      request := some ⟨.hostToDevice, .vendor, .device, 0, 0, 0, 0⟩,
      buf := List.replicate 128 0, i := 0, len := 0 }}

lemma splitIntoChunks_short (M : Nat) (xs : List Nat)
    (h : M = 0 ∨ xs.length ≤ M) : splitIntoChunks M xs = [xs] := by
  rw [splitIntoChunks]
  simp [h]

lemma splitIntoChunks_long (M : Nat) (xs : List Nat)
    (h1 : 0 < M) (h2 : M < xs.length) :
    splitIntoChunks M xs = xs.take M :: splitIntoChunks M (xs.drop M) := by
  rw [splitIntoChunks]
  have : ¬ (M = 0 ∨ xs.length ≤ M) := by omega
  simp [this]

lemma splitIntoChunks_flatten (M : Nat) (xs : List Nat) :
    (splitIntoChunks M xs).flatten = xs := by
  induction xs using splitIntoChunks.induct M with
  | case1 xs h => rw [splitIntoChunks_short M xs h]; simp
  | case2 xs h ih =>
    push_neg at h
    rw [splitIntoChunks_long M xs (by omega) (by omega)]
    simp [ih]

lemma runDataIn_statusOut (g : Nat) (d : Dev)
    (h : d.control.state = .statusOut) : runDataIn g d = (d, [], []) := by
  cases g with
  | zero => rfl
  | succ g => simp [runDataIn, h]

lemma runDataIn_dataInLast (g : Nat) (d : Dev)
    (h : d.control.state = .dataInLast) (hg : 1 ≤ g) :
    runDataIn g d =
      ({d with control := {d.control with state := .statusOut}},
       [.setStalled 0 false], [.statusOut]) := by
  cases g with
  | zero => omega
  | succ g =>
    simp [runDataIn, h, handleControlInComplete, runDataIn_statusOut]

lemma dataInPackets_cons (M len : Nat) (xs : List Nat)
    (hM : 0 < M) (hlt : M < len) (hlen : len ≤ xs.length) :
    dataInPackets M len xs =
      xs.take M :: dataInPackets M (len - M) (xs.drop M) := by
  unfold dataInPackets
  have h1 : (xs.take len).length = len := by simp; omega
  rw [splitIntoChunks_long M (xs.take len) hM (by omega)]
  rw [List.take_take, Nat.min_eq_left (le_of_lt hlt), List.drop_take]
  have hcond : (len % M = 0 ∧ 0 < len) ↔
      ((len - M) % M = 0 ∧ 0 < len - M) := by
    have hmod : len % M = (len - M) % M :=
      Nat.mod_eq_sub_mod (le_of_lt hlt)
    constructor
    · rintro ⟨hz, _⟩; exact ⟨hmod ▸ hz, by omega⟩
    · rintro ⟨hz, _⟩; exact ⟨by rw [hmod]; exact hz, by omega⟩
  rw [if_congr hcond rfl rfl]
  simp

lemma runDataIn_dataInZlp (g : Nat) (d : Dev)
    (h : d.control.state = .dataInZlp) (hg : 2 ≤ g) :
    runDataIn g d =
      ({d with control := {d.control with state := .statusOut}},
       [.writeIn [], .setStalled 0 false], [.dataInLast, .statusOut]) := by
  cases g with
  | zero => omega
  | succ g =>
    rw [runDataIn]
    simp only [h]
    rw [handleControlInComplete]
    simp only [h]
    rw [runDataIn_dataInLast g _ (by simp) (by omega)]
    simp

lemma runDataIn_dataIn (f : Nat) (d : Dev) (h : d.control.state = .dataIn) :
    runDataIn (f + 1) d = stageFrom f d := by
  rw [runDataIn, stageFrom]
  simp only [h]
  rw [handleControlInComplete]
  simp only [h]
  rcases hw : writeControlInChunk d with ⟨d1, op⟩
  rcases hr : runDataIn f d1 with ⟨d2, ops2, tr⟩
  simp

lemma stageFrom_spec (f : Nat) :
    ∀ d : Dev, d.control.state = .dataIn →
      d.control.i ≤ d.control.len →
      d.control.len ≤ d.control.buf.length →
      0 < d.info.maxPacketSize0 →
      d.control.len - d.control.i + 1 ≤ f →
      (stageFrom f d).1 = dataStageEnd d ∧
      (stageFrom f d).2.1 =
        (dataInPackets d.info.maxPacketSize0 (d.control.len - d.control.i)
          (d.control.buf.drop d.control.i)).map BusOp.writeIn ++
        [BusOp.setStalled 0 false] ∧
      (ControlState.dataInZlp ∈ (stageFrom f d).2.2 ↔
        ((d.control.len - d.control.i) % d.info.maxPacketSize0 = 0 ∧
         0 < d.control.len - d.control.i)) := by
  induction f with
  | zero => intro d _ _ _ _ hf; omega
  | succ f ih =>
    intro d hst hi hbuf hM hf
    by_cases hr : d.control.len - d.control.i ≤ d.info.maxPacketSize0
    · have hmin : min (d.control.len - d.control.i) d.info.maxPacketSize0 =
          d.control.len - d.control.i := Nat.min_eq_left hr
      have hge : d.control.i + (d.control.len - d.control.i) ≥
          d.control.len := by omega
      have hieq : d.control.i + (d.control.len - d.control.i) =
          d.control.len := by omega
      have hshort : ((d.control.buf.drop d.control.i).take
          (d.control.len - d.control.i)).length ≤ d.info.maxPacketSize0 := by
        simp only [List.length_take, List.length_drop]
        omega
      by_cases hrM : d.control.len - d.control.i = d.info.maxPacketSize0
      · -- final chunk is full-sized: DataInZlp path
        set d1 : Dev := {d with control := {d.control with
            i := d.control.len, state := .dataInZlp}} with hd1
        have hchunk : writeControlInChunk d =
            (d1, .writeIn ((d.control.buf.drop d.control.i).take
               (d.control.len - d.control.i))) := by
          rw [writeControlInChunk]
          rw [hmin, if_pos hge, if_pos hrM, hieq, hd1]
        rw [stageFrom, hchunk]
        dsimp only
        rw [runDataIn_dataInZlp (f + 1) d1 (by rw [hd1]) (by omega)]
        dsimp only
        refine ⟨rfl, ?_, ?_⟩
        · rw [dataInPackets, splitIntoChunks_short _ _ (Or.inr hshort),
            if_pos ⟨by rw [hrM]; exact Nat.mod_self _, by omega⟩]
          simp
        · simp only [List.mem_cons]
          constructor
          · intro _; exact ⟨by rw [hrM]; exact Nat.mod_self _, by omega⟩
          · intro _; left; trivial
      · -- final chunk is short: DataInLast path
        have hzlp : ¬ ((d.control.len - d.control.i) %
            d.info.maxPacketSize0 = 0 ∧
            0 < d.control.len - d.control.i) := by
          rintro ⟨h1, h2⟩
          rw [Nat.mod_eq_of_lt (by omega)] at h1
          omega
        set d1 : Dev := {d with control := {d.control with
            i := d.control.len, state := .dataInLast}} with hd1
        have hchunk : writeControlInChunk d =
            (d1, .writeIn ((d.control.buf.drop d.control.i).take
               (d.control.len - d.control.i))) := by
          rw [writeControlInChunk]
          rw [hmin, if_pos hge, if_neg hrM, hieq, hd1]
        rw [stageFrom, hchunk]
        dsimp only
        rw [runDataIn_dataInLast (f + 1) d1 (by rw [hd1]) (by omega)]
        dsimp only
        refine ⟨rfl, ?_, ?_⟩
        · rw [dataInPackets, splitIntoChunks_short _ _ (Or.inr hshort),
            if_neg hzlp]
          simp
        · simp only [List.mem_cons]
          constructor
          · rintro (h | h | h) <;> simp_all [hd1]
          · intro h; exact absurd h hzlp
    · push_neg at hr
      have hmin : min (d.control.len - d.control.i) d.info.maxPacketSize0 =
          d.info.maxPacketSize0 := Nat.min_eq_right (le_of_lt hr)
      have hlt : ¬ (d.control.i + d.info.maxPacketSize0 ≥
          d.control.len) := by omega
      set d1 : Dev := {d with control := {d.control with
          i := d.control.i + d.info.maxPacketSize0, state := .dataIn}}
        with hd1
      have hchunk : writeControlInChunk d =
          (d1, .writeIn ((d.control.buf.drop d.control.i).take
             d.info.maxPacketSize0)) := by
        rw [writeControlInChunk]
        rw [hmin, if_neg hlt, hst, hd1]
      have hproj1 : d1.control.len - d1.control.i =
          d.control.len - (d.control.i + d.info.maxPacketSize0) := by
        rw [hd1]
      have hproj2 : d1.control.buf.drop d1.control.i =
          d.control.buf.drop (d.control.i + d.info.maxPacketSize0) := by
        rw [hd1]
      rw [stageFrom, hchunk]
      dsimp only
      rw [runDataIn_dataIn f d1 (by rw [hd1])]
      obtain ⟨ih1, ih2, ih3⟩ := ih d1
        (by rw [hd1]) (by rw [hd1]; dsimp only; omega)
        (by rw [hd1]; dsimp only; exact hbuf) (by rw [hd1]; dsimp only; omega)
        (by rw [hd1]; dsimp only; omega)
      rcases hs : stageFrom f d1 with ⟨d2, ops2, tr⟩
      rw [hs] at ih1 ih2 ih3
      dsimp only at ih1 ih2 ih3
      rw [hproj1] at ih2 ih3
      rw [hproj2] at ih2
      refine ⟨?_, ?_, ?_⟩
      · rw [ih1, hd1]
        rfl
      · dsimp only
        rw [ih2]
        rw [dataInPackets_cons _ _ _ hM hr (by simp; omega)]
        simp only [List.map_cons, List.drop_drop]
        rw [Nat.sub_sub]
        simp
      · dsimp only
        simp only [List.mem_cons]
        have hmod : (d.control.len - d.control.i) %
            d.info.maxPacketSize0 =
            (d.control.len - (d.control.i + d.info.maxPacketSize0)) %
            d.info.maxPacketSize0 := by
          rw [← Nat.sub_sub]
          exact Nat.mod_eq_sub_mod (le_of_lt hr)
        constructor
        · rintro (h | h)
          · exact absurd h (by simp)
          · obtain ⟨h1, h2⟩ := ih3.mp h
            exact ⟨by rw [hmod]; exact h1, by omega⟩
        · rintro ⟨h1, h2⟩
          right
          apply ih3.mpr
          exact ⟨by rw [← hmod]; exact h1, by omega⟩

lemma opsBytesOut_append (a b : List BusOp) :
    opsBytesOut (a ++ b) = opsBytesOut a + opsBytesOut b := by
  simp [opsBytesOut]

lemma opsBytesOut_map_writeIn (ps : List (List Nat)) :
    opsBytesOut (ps.map BusOp.writeIn) = ps.flatten.length := by
  induction ps with
  | nil => rfl
  | cons p ps ih => simp [opsBytesOut] at ih ⊢; omega

lemma opsBytesOut_dataInPackets (M len : Nat) (buf : List Nat)
    (h : len ≤ buf.length) :
    opsBytesOut ((dataInPackets M len buf).map BusOp.writeIn ++
      [BusOp.setStalled 0 false]) = len := by
  rw [opsBytesOut_append, opsBytesOut_map_writeIn, dataInPackets]
  have : (splitIntoChunks M (buf.take len)).flatten = buf.take len :=
    splitIntoChunks_flatten M (buf.take len)
  by_cases hz : len % M = 0 ∧ 0 < len <;>
    simp [hz, this, opsBytesOut] <;> omega

lemma foldl_applyClassConfig (cs : List UsbClass) (b : List Nat) (n : Nat) :
    cs.foldl applyClassConfig ⟨b, n⟩ =
      ⟨b ++ (cs.map (fun c => c.cfgDescriptors)).flatten,
       n + (cs.map (fun c => c.cfgInterfaces)).sum⟩ := by
  induction cs generalizing b n with
  | nil => simp
  | cons c cs ih =>
    rw [List.foldl_cons, applyClassConfig, ih]
    simp [Nat.add_assoc]

lemma controlInDispatch_setRequest (d : Dev) (r : Option Request)
    (req : Request) :
    controlInDispatch {d with control := {d.control with request := r}} req =
      controlInDispatch d req := rfl

lemma controlInLoop_nil (req : Request) (buf : List Nat) :
    controlInLoop [] req buf = (.ignore, buf, []) := rfl

lemma controlInLoop_cons (c : UsbClass) (rest : List UsbClass)
    (req : Request) (buf : List Nat) :
    controlInLoop (c :: rest) req buf =
      (match c.controlIn req buf with
       | (res, buf1) =>
         if res = .ignore then
           match controlInLoop rest req buf1 with
           | (res2, buf2, calls) => (res2, buf2, .controlIn c.cid :: calls)
         else (res, buf1, [.controlIn c.cid])) := rfl

lemma controlOutLoop_nil (req : Request) (data : List Nat) :
    controlOutLoop [] req data = (.ignore, []) := rfl

lemma controlOutLoop_cons (c : UsbClass) (rest : List UsbClass)
    (req : Request) (data : List Nat) :
    controlOutLoop (c :: rest) req data =
      (if c.controlOut req data = .ignore then
         match controlOutLoop rest req data with
         | (r2, calls) => (r2, .controlOut c.cid :: calls)
       else (c.controlOut req data, [.controlOut c.cid])) := rfl

/-- In `complete_control_out` the prior control-transfer state is
irrelevant: every path overwrites it (with StatusIn or Error). -/
lemma completeControlOut_state (d : Dev) (st : ControlState) :
    completeControlOut {d with control := {d.control with state := st}} =
      completeControlOut d := by
  obtain ⟨info, cls, ⟨cst, creq, cbuf, ci, clen⟩, ds, pa, rwe, spr, bs⟩ := d
  rw [completeControlOut, completeControlOut]
  dsimp only
  cases creq with
  | none => rfl
  | some req =>
    dsimp only
    rw [controlOutDispatch, controlOutDispatch]
    dsimp only
    rcases hlo : controlOutLoop cls req (cbuf.take clen) with ⟨res, callsL⟩
    dsimp only
    by_cases hig : res = .ignore ∧ req.requestType = .standard
    · simp only [if_pos hig]
      rcases hso : standardControlOut
          ⟨info, cls, ⟨cst, none, cbuf, ci, clen⟩, ds, pa, rwe, spr, bs⟩ req
        with ⟨dso, rso, opsso⟩
      have hrel : standardControlOut
          ⟨info, cls, ⟨st, none, cbuf, ci, clen⟩, ds, pa, rwe, spr, bs⟩ req =
          ({dso with control := {dso.control with state := st}},
           rso, opsso) := by
        rw [standardControlOut] at hso ⊢
        split_ifs at hso ⊢ <;>
        · simp only [Prod.mk.injEq] at hso
          obtain ⟨hd, hr2, ho⟩ := hso
          subst hd
          subst hr2
          subst ho
          rfl
      rw [hrel]
      rfl
    · simp only [if_neg hig]
      rfl

/-- Claim C1 (amended): for a data stage in which the handler deposited
`len` bytes, the engine emits exactly the chunks of the payload —
full `max_packet_size_0`-sized packets until fewer than that remain —
followed by a zero-length packet emitted through the `DataInZlp` state if
and only if `len` is a positive exact multiple of the packet size
(irrespective of `request.length`); otherwise the final short packet
(empty when `len = 0`) terminates the stage through `DataInLast`, after
which the OUT endpoint is unstalled for the status stage. -/
theorem claim_C1 (d : Dev)
    (hst : d.control.state = .dataIn) (hi : d.control.i = 0)
    (hlen : d.control.len ≤ d.control.buf.length)
    (hM : 0 < d.info.maxPacketSize0) :
    (controlInDataStage d).2.1 =
      (dataInPackets d.info.maxPacketSize0 d.control.len d.control.buf).map
        BusOp.writeIn ++ [BusOp.setStalled 0 false] ∧
    (ControlState.dataInZlp ∈ (controlInDataStage d).2.2 ↔
      (d.control.len % d.info.maxPacketSize0 = 0 ∧ 0 < d.control.len)) ∧
    (controlInDataStage d).1 = dataStageEnd d := by
  have h := stageFrom_spec (d.control.len + 3) d hst (by omega) hlen hM
    (by omega)
  rw [hi] at h
  simp only [Nat.sub_zero, List.drop_zero] at h
  rw [controlInDataStage]
  exact ⟨h.2.1, h.2.2, h.1⟩

/-- Claim C1 counterexample: with max packet size 8, a handler deposit of
8 bytes and `request.length = 8`, the engine passes through `DataInZlp`
and sends a zero-length packet even though `len` is not strictly less
than `request.length`, contradicting the claim's ZLP condition. -/
theorem claim_C1_counterexample :
    cexC1Dev.control.request =
      some ⟨.deviceToHost, .vendor, .device, 0, 0, 0, 8⟩ ∧
    cexC1Dev.control.len = 8 ∧
    cexC1Dev.info.maxPacketSize0 = 8 ∧
    ¬ cexC1Dev.control.len < 8 ∧
    ControlState.dataInZlp ∈ (controlInDataStage cexC1Dev).2.2 ∧
    (controlInDataStage cexC1Dev).2.1 =
      [.writeIn (List.replicate 8 5), .writeIn [], .setStalled 0 false] := by
  decide

theorem claim_C1_witness :
    (controlInDataStage c1WitDev).2.1 =
      (dataInPackets c1WitDev.info.maxPacketSize0 c1WitDev.control.len
        c1WitDev.control.buf).map BusOp.writeIn ++
        [BusOp.setStalled 0 false] ∧
    (ControlState.dataInZlp ∈ (controlInDataStage c1WitDev).2.2 ↔
      (c1WitDev.control.len % c1WitDev.info.maxPacketSize0 = 0 ∧
       0 < c1WitDev.control.len)) ∧
    (controlInDataStage c1WitDev).1 = dataStageEnd c1WitDev :=
  claim_C1 c1WitDev rfl rfl (by simp [c1WitDev, demoDev])
    (by simp [c1WitDev, demoDev, demoInfo])

/-- Claim C4: a bus reset leaves the control engine in Idle, clears the
pending address, returns the device state to Default, and invokes every
registered class's `reset` exactly once (one invocation per registered
slot, in registration order); a poll that reports a reset performs
exactly this and nothing else. -/
theorem claim_C4 (d : Dev) :
    (resetDev d).1.control.state = .idle ∧
    (resetDev d).1.pendingAddress = 0 ∧
    (resetDev d).1.deviceState = .default ∧
    (resetDev d).2.2 = d.classes.map (fun c => ClassCall.resetCall c.cid) ∧
    (∀ n : Nat, ((resetDev d).2.2).count (ClassCall.resetCall n) =
      (d.classes.map (fun c => c.cid)).count n) ∧
    (∀ (s : Bool) (eo ei : Nat) (req : Request) (pkt : List Nat),
      poll d ⟨true, s, eo, ei⟩ req pkt = some (resetDev d)) := by
  refine ⟨rfl, rfl, rfl, rfl, ?_, ?_⟩
  · intro n
    have hinj : Function.Injective ClassCall.resetCall := by
      intro a b h
      injection h
    rw [resetDev]
    dsimp only
    rw [show (fun c : UsbClass => ClassCall.resetCall c.cid) =
        (ClassCall.resetCall ∘ fun c : UsbClass => c.cid) from rfl]
    rw [← List.map_map, List.count_map_of_injective _ _ hinj]
  · intro s eo ei req pkt
    rfl

/-- Claim C7 (code bug): a poll reporting an IN-complete event for
endpoint 1 invokes each class's `endpoint_out` with address `0x81`
(`i | 0x80`) instead of `endpoint_in_complete`; no
`endpoint_in_complete` invocation is made. -/
theorem claim_C7 :
    (poll c7Dev ⟨false, false, 0, 2⟩
        ⟨.hostToDevice, .standard, .device, 0, 0, 0, 0⟩ []).map
      (fun x => x.2.2) = some [ClassCall.endpointOut 3 129] ∧
    ¬ (poll c7Dev ⟨false, false, 0, 2⟩
        ⟨.hostToDevice, .standard, .device, 0, 0, 0, 0⟩ []).map
      (fun x => x.2.2) = some [ClassCall.endpointInComplete 3 129] := by
  decide

/-- Claim C2: an accepted SET_ADDRESS with value in [1..127] latches the
address, sends the zero-length IN status packet without touching the bus
address, and only on the completion of that status packet invokes
`set_device_address` — exactly once, clearing the pending slot (so a
further IN completion performs no address operation). -/
theorem claim_C2 (d : Dev) (v : Nat) (calls0 : List ClassCall)
    (h1 : 1 ≤ v) (h2 : v ≤ 127)
    (hloop : controlOutLoop d.classes
      ⟨.hostToDevice, .standard, .device, 5, v, 0, 0⟩ [] = (.ignore, calls0)) :
    (handleControlSetup d ⟨.hostToDevice, .standard, .device, 5, v, 0, 0⟩).map
      (fun x =>
        (x.2.1, x.1.control.state, x.1.pendingAddress,
         (handleControlInComplete x.1).2.1,
         (handleControlInComplete x.1).1.pendingAddress,
         (handleControlInComplete x.1).1.deviceState,
         (handleControlInComplete x.1).1.control.state,
         (handleControlInComplete (handleControlInComplete x.1).1).2.1)) =
      some ([.writeIn []], .statusIn, v,
        [.setDeviceAddress v], 0, .addressed, .idle,
        [.setStalled 0 true, .setStalled 0x80 true]) := by
  have hv : v % 256 = v := Nat.mod_eq_of_lt (by omega)
  have hv0 : ¬ v = 0 := by omega
  simp [handleControlSetup, completeControlOut, controlOutDispatch, hloop,
    standardControlOut, setControlError, handleControlInComplete, hv, hv0,
    h1, h2]

theorem claim_C2_witness :
    (handleControlSetup (demoDev [])
        ⟨.hostToDevice, .standard, .device, 5, 42, 0, 0⟩).map
      (fun x =>
        (x.2.1, x.1.control.state, x.1.pendingAddress,
         (handleControlInComplete x.1).2.1,
         (handleControlInComplete x.1).1.pendingAddress,
         (handleControlInComplete x.1).1.deviceState,
         (handleControlInComplete x.1).1.control.state,
         (handleControlInComplete (handleControlInComplete x.1).1).2.1)) =
      some ([.writeIn []], .statusIn, 42,
        [.setDeviceAddress 42], 0, .addressed, .idle,
        [.setStalled 0 true, .setStalled 0x80 true]) :=
  claim_C2 (demoDev []) 42 [] (by decide) (by decide) (by decide)

/-- Claim C6: the standard-request handler sets the device state to
Configured for SET_CONFIGURATION with value 1 (status stage follows);
any other value is rejected: endpoint zero is stalled in both directions
and the device state is unchanged. -/
theorem claim_C6 (d : Dev) (v : Nat) (calls0 : List ClassCall)
    (hloop : controlOutLoop d.classes
      ⟨.hostToDevice, .standard, .device, 9, v, 0, 0⟩ [] = (.ignore, calls0)) :
    (v = 1 →
      (handleControlSetup d
          ⟨.hostToDevice, .standard, .device, 9, v, 0, 0⟩).map
        (fun x => (x.1.deviceState, x.1.control.state, x.2.1)) =
        some (.configured, .statusIn, [.writeIn []])) ∧
    (¬ v = 1 →
      (handleControlSetup d
          ⟨.hostToDevice, .standard, .device, 9, v, 0, 0⟩).map
        (fun x => (x.1.deviceState, x.1.control.state, x.2.1)) =
        some (d.deviceState, .error,
          [.setStalled 0 true, .setStalled 0x80 true])) := by
  constructor
  · intro hv
    subst hv
    simp [handleControlSetup, completeControlOut, controlOutDispatch, hloop,
      standardControlOut, setControlError]
  · intro hv
    simp [handleControlSetup, completeControlOut, controlOutDispatch, hloop,
      standardControlOut, setControlError, hv]

theorem claim_C6_witness :
    (handleControlSetup (demoDev [])
        ⟨.hostToDevice, .standard, .device, 9, 2, 0, 0⟩).map
      (fun x => (x.1.deviceState, x.1.control.state, x.2.1)) =
      some (.default, .error,
        [.setStalled 0 true, .setStalled 0x80 true]) :=
  (claim_C6 (demoDev []) 2 [] (by decide)).2 (by decide)

/-- Claim C8: a host-to-device SETUP whose declared length exceeds the
128-byte control buffer enters the Error state stalling both
endpoint-zero directions; in the Error state any OUT packet or IN
completion re-stalls and stays in Error; and `handle_control_setup` is
insensitive to the prior control state, so the next SETUP restarts the
engine the same way it would from Idle. -/
theorem claim_C8 :
    (∀ (d : Dev) (req : Request),
        req.direction = .hostToDevice →
        d.control.buf.length = 128 → req.length > 128 →
        (handleControlSetup d req).map
          (fun x => (x.1.control.state, x.2.1)) =
          some (.error, [.setStalled 0 true, .setStalled 0x80 true])) ∧
    (∀ (d : Dev) (pkt : List Nat),
        d.control.state = .error →
        (handleControlOut d pkt).map
          (fun x => (x.1.control.state, x.2.1)) =
          some (.error, [.setStalled 0 true, .setStalled 0x80 true]) ∧
        (handleControlInComplete d).1.control.state = .error ∧
        (handleControlInComplete d).2.1 =
          [.setStalled 0 true, .setStalled 0x80 true]) ∧
    (∀ (d : Dev) (req : Request) (st : ControlState),
        handleControlSetup
          {d with control := {d.control with state := st}} req =
          handleControlSetup d req) := by
  refine ⟨?_, ?_, ?_⟩
  · intro d req hdir hblen hlen
    have h0 : req.length > 0 := by omega
    have hgt : req.length > d.control.buf.length := by omega
    simp [handleControlSetup, hdir, h0, hgt, setControlError]
  · intro d pkt herr
    refine ⟨?_, ?_, ?_⟩
    · simp [handleControlOut, herr, setControlError]
    · simp [handleControlInComplete, herr, setControlError]
    · simp [handleControlInComplete, herr, setControlError]
  · intro d req st
    cases hdir : req.direction with
    | hostToDevice =>
      by_cases hl : req.length > 0
      · by_cases hb : req.length > d.control.buf.length
        · simp [handleControlSetup, hdir, hl, hb, setControlError]
        · simp [handleControlSetup, hdir, hl, hb]
      · simp only [handleControlSetup, hdir]
        rw [if_neg hl, if_neg hl]
        exact completeControlOut_state
          {d with control := {d.control with request := some req, len := 0}}
          st
    | deviceToHost =>
      simp only [handleControlSetup, hdir]
      rfl

theorem claim_C8_witness :
    (handleControlSetup (demoDev [])
        ⟨.hostToDevice, .vendor, .device, 0, 0, 0, 200⟩).map
      (fun x => (x.1.control.state, x.2.1)) =
      some (.error, [.setStalled 0 true, .setStalled 0x80 true]) :=
  claim_C8.1 (demoDev []) ⟨.hostToDevice, .vendor, .device, 0, 0, 0, 200⟩
    rfl (by simp [demoDev]) (by decide)

/-- Claim C3: classes are offered a setup request in registration order —
device-to-host requests through `control_in`, host-to-device requests
through `control_out` — and each traversal stops at the first class whose
result is not Ignore, so later classes are not invoked; when every class
ignores a Standard-type request, the standard-request handler runs; any
other outcome (all Ignore with a non-Standard type, or an explicit Err)
puts the engine in the Error state with both endpoint-zero directions
stalled, in both directions. -/
theorem claim_C3 :
    (∀ (pre : List UsbClass) (b : UsbClass) (post : List UsbClass)
        (req : Request) (buf buf1 buf2 : List Nat)
        (calls1 : List ClassCall) (r : ControlInRes),
        controlInLoop pre req buf = (.ignore, buf1, calls1) →
        b.controlIn req buf1 = (r, buf2) →
        ¬ r = .ignore →
        controlInLoop (pre ++ b :: post) req buf =
          (r, buf2, calls1 ++ [.controlIn b.cid])) ∧
    (∀ (d : Dev) (req : Request) (buf1 : List Nat) (calls1 : List ClassCall),
        controlInLoop d.classes req d.control.buf = (.ignore, buf1, calls1) →
        req.requestType = .standard →
        controlInDispatch d req =
          ((standardControlIn d req buf1).1, (standardControlIn d req buf1).2,
           calls1 ++ [.standardControlIn])) ∧
    (∀ (d : Dev) (req : Request),
        req.direction = .deviceToHost →
        (∀ n, ¬ (controlInDispatch d req).1 = .ok n) →
        (handleControlSetup d req).map
          (fun x => (x.1.control.state, x.2.1)) =
          some (.error, [.setStalled 0 true, .setStalled 0x80 true])) ∧
    (∀ (pre : List UsbClass) (b : UsbClass) (post : List UsbClass)
        (req : Request) (data : List Nat)
        (calls1 : List ClassCall) (r : ControlOutRes),
        controlOutLoop pre req data = (.ignore, calls1) →
        b.controlOut req data = r →
        ¬ r = .ignore →
        controlOutLoop (pre ++ b :: post) req data =
          (r, calls1 ++ [.controlOut b.cid])) ∧
    (∀ (d : Dev) (req : Request) (data : List Nat)
        (calls1 : List ClassCall),
        controlOutLoop d.classes req data = (.ignore, calls1) →
        req.requestType = .standard →
        controlOutDispatch d req data =
          ((standardControlOut d req).1, (standardControlOut d req).2.1,
           (standardControlOut d req).2.2,
           calls1 ++ [.standardControlOut])) ∧
    (∀ (d : Dev) (req : Request),
        d.control.request = some req →
        ¬ (controlOutDispatch
            {d with control := {d.control with request := none}} req
            (d.control.buf.take d.control.len)).2.1 = .ok →
        (completeControlOut d).map
          (fun x => (x.1.control.state, x.2.1)) =
          some (.error,
            (controlOutDispatch
              {d with control := {d.control with request := none}} req
              (d.control.buf.take d.control.len)).2.2.1 ++
            [.setStalled 0 true, .setStalled 0x80 true])) := by
  refine ⟨?_, ?_, ?_, ?_, ?_, ?_⟩
  · intro pre
    induction pre with
    | nil =>
      intro b post req buf buf1 buf2 calls1 r hpre hb hr
      rw [controlInLoop_nil] at hpre
      simp only [Prod.mk.injEq] at hpre
      obtain ⟨-, hbuf, hcalls⟩ := hpre
      subst hbuf
      subst hcalls
      rw [List.nil_append, controlInLoop_cons, hb]
      simp [hr]
    | cons c pre ih =>
      intro b post req buf buf1 buf2 calls1 r hpre hb hr
      rw [controlInLoop_cons] at hpre
      rcases hc : c.controlIn req buf with ⟨res0, bufc⟩
      rw [hc] at hpre
      dsimp only at hpre
      by_cases h0 : res0 = .ignore
      · rw [if_pos h0] at hpre
        rcases hrec : controlInLoop pre req bufc with ⟨res1, bufr, callsr⟩
        rw [hrec] at hpre
        dsimp only at hpre
        simp only [Prod.mk.injEq] at hpre
        obtain ⟨hres1, hbufr, hcalls⟩ := hpre
        subst hres1
        subst hcalls
        rw [hbufr] at hrec
        rw [List.cons_append, controlInLoop_cons, hc]
        dsimp only
        rw [if_pos h0, ih b post req bufc buf1 buf2 callsr r hrec hb hr]
        simp
      · rw [if_neg h0] at hpre
        simp only [Prod.mk.injEq] at hpre
        exact absurd hpre.1 h0
  · intro d req buf1 calls1 hloop hstd
    rcases hsc : standardControlIn d req buf1 with ⟨r2, b2⟩
    rw [controlInDispatch, hloop]
    simp [hstd, hsc]
  · intro d req hdir hnot
    rcases hdisp : controlInDispatch d req with ⟨res, bufx, callsx⟩
    have hdisp2 : controlInDispatch
        {d with control := {d.control with request := some req}} req =
        (res, bufx, callsx) := by
      rw [controlInDispatch_setRequest]
      exact hdisp
    cases res with
    | ok n =>
      exact absurd (by rw [hdisp] : (controlInDispatch d req).1 = .ok n)
        (hnot n)
    | ignore =>
      simp [handleControlSetup, hdir, hdisp2, setControlError]
    | err =>
      simp [handleControlSetup, hdir, hdisp2, setControlError]
  · intro pre
    induction pre with
    | nil =>
      intro b post req data calls1 r hpre hb hr
      rw [controlOutLoop_nil] at hpre
      simp only [Prod.mk.injEq] at hpre
      obtain ⟨-, hcalls⟩ := hpre
      subst hcalls
      rw [List.nil_append, controlOutLoop_cons, hb, if_neg hr]
      simp
    | cons c pre ih =>
      intro b post req data calls1 r hpre hb hr
      rw [controlOutLoop_cons] at hpre
      by_cases h0 : c.controlOut req data = .ignore
      · rw [if_pos h0] at hpre
        rcases hrec : controlOutLoop pre req data with ⟨r1, callsr⟩
        rw [hrec] at hpre
        dsimp only at hpre
        simp only [Prod.mk.injEq] at hpre
        obtain ⟨hr1, hcalls⟩ := hpre
        subst hr1
        subst hcalls
        rw [List.cons_append, controlOutLoop_cons, if_pos h0,
          ih b post req data callsr r hrec hb hr]
        simp
      · rw [if_neg h0] at hpre
        simp only [Prod.mk.injEq] at hpre
        exact absurd hpre.1 h0
  · intro d req data calls1 hloop hstd
    rcases hso : standardControlOut d req with ⟨d2, r2, ops2⟩
    rw [controlOutDispatch, hloop]
    simp [hstd, hso]
  · intro d req hreq hnok
    rcases hdisp : controlOutDispatch
        {d with control := {d.control with request := none}} req
        (d.control.buf.take d.control.len) with ⟨dd, res, ops, calls⟩
    rw [hdisp] at hnok
    dsimp only at hnok
    dsimp only
    simp only [completeControlOut, hreq]
    rw [hdisp]
    dsimp only
    rw [if_neg hnok]
    simp [setControlError]

theorem claim_C3_witness :
    controlInLoop ([passiveClass 0] ++ acceptInClass 1 :: [errInClass 2])
        ⟨.deviceToHost, .vendor, .device, 0, 0, 0, 4⟩ [] =
      (.ok 4, [0xde, 0xad, 0xbe, 0xef],
       [ClassCall.controlIn 0] ++ [ClassCall.controlIn 1]) ∧
    controlInDispatch (demoDev [passiveClass 0])
        ⟨.deviceToHost, .standard, .device, 0, 0, 0, 2⟩ =
      ((standardControlIn (demoDev [passiveClass 0])
          ⟨.deviceToHost, .standard, .device, 0, 0, 0, 2⟩
          (List.replicate 128 0)).1,
       (standardControlIn (demoDev [passiveClass 0])
          ⟨.deviceToHost, .standard, .device, 0, 0, 0, 2⟩
          (List.replicate 128 0)).2,
       [ClassCall.controlIn 0] ++ [.standardControlIn]) ∧
    (handleControlSetup (demoDev [])
        ⟨.deviceToHost, .vendor, .device, 0, 0, 0, 4⟩).map
      (fun x => (x.1.control.state, x.2.1)) =
      some (.error, [.setStalled 0 true, .setStalled 0x80 true]) ∧
    controlOutLoop ([passiveClass 0] ++ acceptOutClass 1 :: [errOutClass 2])
        ⟨.hostToDevice, .vendor, .device, 0, 0, 0, 0⟩ [] =
      (.ok, [ClassCall.controlOut 0] ++ [ClassCall.controlOut 1]) ∧
    controlOutDispatch (demoDev [passiveClass 0])
        ⟨.hostToDevice, .standard, .device, 9, 1, 0, 0⟩ [] =
      ((standardControlOut (demoDev [passiveClass 0])
          ⟨.hostToDevice, .standard, .device, 9, 1, 0, 0⟩).1,
       (standardControlOut (demoDev [passiveClass 0])
          ⟨.hostToDevice, .standard, .device, 9, 1, 0, 0⟩).2.1,
       (standardControlOut (demoDev [passiveClass 0])
          ⟨.hostToDevice, .standard, .device, 9, 1, 0, 0⟩).2.2,
       [ClassCall.controlOut 0] ++ [.standardControlOut]) ∧
    (completeControlOut c3OutDev).map
      (fun x => (x.1.control.state, x.2.1)) =
      some (.error,
        (controlOutDispatch
          {c3OutDev with control :=
            {c3OutDev.control with request := none}}
          ⟨.hostToDevice, .vendor, .device, 0, 0, 0, 0⟩
          (c3OutDev.control.buf.take c3OutDev.control.len)).2.2.1 ++
        [.setStalled 0 true, .setStalled 0x80 true]) := by
  refine ⟨?_, ?_, ?_, ?_, ?_, ?_⟩
  · exact claim_C3.1 [passiveClass 0] (acceptInClass 1) [errInClass 2]
      ⟨.deviceToHost, .vendor, .device, 0, 0, 0, 4⟩ [] [] _ _ _
      (by decide) (by decide) (by decide)
  · exact claim_C3.2.1 (demoDev [passiveClass 0])
      ⟨.deviceToHost, .standard, .device, 0, 0, 0, 2⟩
      (List.replicate 128 0) [ClassCall.controlIn 0]
      (by simp [demoDev, passiveClass, controlInLoop]) (by decide)
  · exact claim_C3.2.2.1 (demoDev [])
      ⟨.deviceToHost, .vendor, .device, 0, 0, 0, 4⟩ rfl
      (by
        intro n h
        simp [controlInDispatch, controlInLoop, demoDev] at h)
  · exact claim_C3.2.2.2.1 [passiveClass 0] (acceptOutClass 1)
      [errOutClass 2] ⟨.hostToDevice, .vendor, .device, 0, 0, 0, 0⟩ []
      [ClassCall.controlOut 0] .ok (by decide) (by decide) (by decide)
  · exact claim_C3.2.2.2.2.1 (demoDev [passiveClass 0])
      ⟨.hostToDevice, .standard, .device, 9, 1, 0, 0⟩ []
      [ClassCall.controlOut 0] (by decide) (by decide)
  · exact claim_C3.2.2.2.2.2 c3OutDev
      ⟨.hostToDevice, .vendor, .device, 0, 0, 0, 0⟩ rfl (by decide)

/-- Claim C9: a GET_DESCRIPTOR request for descriptor type DEVICE yields
an 18-byte descriptor beginning 12 01 00 02, then the class/subclass/
protocol triple, endpoint-zero max packet size, little-endian vendor id,
product id and device release, string indices 1, 2, 3 and a configuration
count of 1. -/
theorem claim_C9 (d : Dev) (req : Request) (buf : List Nat)
    (hreq : req.value / 256 % 256 = 1) :
    (handleGetDescriptor d req buf).1 = .ok 18 ∧
    (handleGetDescriptor d req buf).2.take 18 =
      [0x12, 0x01, 0x00, 0x02,
       d.info.deviceClass, d.info.deviceSubClass, d.info.deviceProtocol,
       d.info.maxPacketSize0,
       d.info.vendorId % 256, d.info.vendorId / 256 % 256,
       d.info.productId % 256, d.info.productId / 256 % 256,
       d.info.deviceRelease % 256, d.info.deviceRelease / 256 % 256,
       1, 2, 3, 1] := by
  rw [handleGetDescriptor]
  simp only [hreq]
  norm_num [DescriptorWriter.write, DescriptorWriter.count]

theorem claim_C9_witness :
    (handleGetDescriptor (demoDev [])
        ⟨.deviceToHost, .standard, .device, 6, 256, 0, 64⟩
        (List.replicate 128 0)).1 = .ok 18 ∧
    (handleGetDescriptor (demoDev [])
        ⟨.deviceToHost, .standard, .device, 6, 256, 0, 64⟩
        (List.replicate 128 0)).2.take 18 =
      [0x12, 0x01, 0x00, 0x02,
       (demoDev []).info.deviceClass, (demoDev []).info.deviceSubClass,
       (demoDev []).info.deviceProtocol, (demoDev []).info.maxPacketSize0,
       (demoDev []).info.vendorId % 256, (demoDev []).info.vendorId / 256 % 256,
       (demoDev []).info.productId % 256, (demoDev []).info.productId / 256 % 256,
       (demoDev []).info.deviceRelease % 256,
       (demoDev []).info.deviceRelease / 256 % 256,
       1, 2, 3, 1] :=
  claim_C9 (demoDev []) ⟨.deviceToHost, .standard, .device, 6, 256, 0, 64⟩
    (List.replicate 128 0) (by decide)

/-- Claim C5: for a GET_DESCRIPTOR(CONFIGURATION) request the handler
emits the 9-byte header followed by every class's contribution in
registration order, then patches bytes 2..4 with the little-endian total
emitted length and byte 4 with the contributed interface count; the
attribute byte has bit 7 always set, bit 6 equal to the self-powered
flag and bit 5 equal to the remote-wakeup-supported flag. -/
theorem claim_C5 (d : Dev) (req : Request) (buf : List Nat)
    (hreq : req.value / 256 % 256 = 2) :
    ((handleGetDescriptor d req buf).1 =
      .ok (9 + (d.classes.map (fun c => c.cfgDescriptors.length)).sum) ∧
     (handleGetDescriptor d req buf).2.take 9 =
       [9, 2,
        (9 + (d.classes.map (fun c => c.cfgDescriptors.length)).sum) % 256,
        (9 + (d.classes.map (fun c => c.cfgDescriptors.length)).sum) / 256
          % 256,
        (d.classes.map (fun c => c.cfgInterfaces)).sum % 256, 1, 0,
        bmAttributes d.info, d.info.maxPower] ∧
     ((handleGetDescriptor d req buf).2.drop 9).take
         ((d.classes.map (fun c => c.cfgDescriptors.length)).sum) =
       (d.classes.map (fun c => c.cfgDescriptors)).flatten) ∧
    (bmAttributes d.info).testBit 7 = true ∧
    (bmAttributes d.info).testBit 6 = d.info.selfPowered ∧
    (bmAttributes d.info).testBit 5 = d.info.remoteWakeup := by
  refine ⟨?_, ?_, ?_, ?_⟩
  · rw [handleGetDescriptor]
    simp only [hreq]
    norm_num [DescriptorWriter.write, DescriptorWriter.count,
      DescriptorWriter.insert, foldl_applyClassConfig, Function.comp_def]
    refine ⟨by omega, by omega, by omega⟩
  · cases hsp : d.info.selfPowered <;> cases hrw : d.info.remoteWakeup <;>
      simp [bmAttributes, hsp, hrw] <;> decide
  · cases hsp : d.info.selfPowered <;> cases hrw : d.info.remoteWakeup <;>
      simp [bmAttributes, hsp, hrw] <;> decide
  · cases hsp : d.info.selfPowered <;> cases hrw : d.info.remoteWakeup <;>
      simp [bmAttributes, hsp, hrw] <;> decide

theorem claim_C5_witness :
    ((handleGetDescriptor (demoDev [cfgClass 4])
        ⟨.deviceToHost, .standard, .device, 6, 512, 0, 0xff⟩
        (List.replicate 128 0)).1 =
      .ok (9 + ((demoDev [cfgClass 4]).classes.map
        (fun c => c.cfgDescriptors.length)).sum) ∧
     (handleGetDescriptor (demoDev [cfgClass 4])
        ⟨.deviceToHost, .standard, .device, 6, 512, 0, 0xff⟩
        (List.replicate 128 0)).2.take 9 =
       [9, 2,
        (9 + ((demoDev [cfgClass 4]).classes.map
          (fun c => c.cfgDescriptors.length)).sum) % 256,
        (9 + ((demoDev [cfgClass 4]).classes.map
          (fun c => c.cfgDescriptors.length)).sum) / 256 % 256,
        ((demoDev [cfgClass 4]).classes.map
          (fun c => c.cfgInterfaces)).sum % 256, 1, 0,
        bmAttributes (demoDev [cfgClass 4]).info,
        (demoDev [cfgClass 4]).info.maxPower] ∧
     ((handleGetDescriptor (demoDev [cfgClass 4])
        ⟨.deviceToHost, .standard, .device, 6, 512, 0, 0xff⟩
        (List.replicate 128 0)).2.drop 9).take
         (((demoDev [cfgClass 4]).classes.map
           (fun c => c.cfgDescriptors.length)).sum) =
       ((demoDev [cfgClass 4]).classes.map
         (fun c => c.cfgDescriptors)).flatten) ∧
    (bmAttributes (demoDev [cfgClass 4]).info).testBit 7 = true ∧
    (bmAttributes (demoDev [cfgClass 4]).info).testBit 6 =
      (demoDev [cfgClass 4]).info.selfPowered ∧
    (bmAttributes (demoDev [cfgClass 4]).info).testBit 5 =
      (demoDev [cfgClass 4]).info.remoteWakeup :=
  claim_C5 (demoDev [cfgClass 4])
    ⟨.deviceToHost, .standard, .device, 6, 512, 0, 0xff⟩
    (List.replicate 128 0) (by decide)

/-- Claim C10: when a device-to-host setup request is accepted with
`Ok n` (by a class or by the standard-request handler), the data stage
transmits exactly `min n request.length` bytes: a class returning more
bytes than the host asked for never causes more than `request.length`
bytes to be sent. -/
theorem claim_C10 (d : Dev) (req : Request) (n : Nat)
    (buf2 : List Nat) (calls : List ClassCall)
    (hdir : req.direction = .deviceToHost)
    (hdisp : controlInDispatch d req = (.ok n, buf2, calls))
    (hfit : min n req.length ≤ buf2.length)
    (hM : 0 < d.info.maxPacketSize0) :
    (handleControlSetup d req).map (fun x =>
      opsBytesOut (x.2.1 ++
        (runDataIn (min n req.length + 3) x.1).2.1)) =
      some (min n req.length) := by
  simp only [handleControlSetup, hdir]
  rw [controlInDispatch_setRequest, hdisp]
  show ((match writeControlInChunk (setupDev d req n buf2) with
        | (d2, op) => some (d2, [op], calls)) :
          Option (Dev × List BusOp × List ClassCall)).map (fun x =>
          opsBytesOut (x.2.1 ++
            (runDataIn (min n req.length + 3) x.1).2.1)) =
        some (min n req.length)
  rcases hw : writeControlInChunk (setupDev d req n buf2) with ⟨d2, op⟩
  obtain ⟨-, hops, -⟩ := stageFrom_spec (min n req.length + 3)
    (setupDev d req n buf2) rfl (by simp [setupDev])
    (by dsimp only [setupDev]; exact hfit) (by simpa [setupDev] using hM)
    (by simp [setupDev])
  have hsf : (stageFrom (min n req.length + 3)
      (setupDev d req n buf2)).2.1 =
      op :: (runDataIn (min n req.length + 3) d2).2.1 := by
    rw [stageFrom, hw]
  rw [hsf] at hops
  simp only [setupDev, Nat.sub_zero, List.drop_zero] at hops
  have hbytes : opsBytesOut ([op] ++
      (runDataIn (min n req.length + 3) d2).2.1) = min n req.length := by
    have := opsBytesOut_dataInPackets d.info.maxPacketSize0
      (min n req.length) buf2 hfit
    rw [List.singleton_append, hops]
    exact this
  simp only [Option.map]
  rw [hbytes]

set_option maxRecDepth 10000 in
theorem claim_C10_witness :
    (handleControlSetup (demoDev [acceptInClass 1])
        ⟨.deviceToHost, .vendor, .device, 0, 0, 0, 64⟩).map (fun x =>
      opsBytesOut (x.2.1 ++
        (runDataIn (min 4 64 + 3) x.1).2.1)) = some (min 4 64) :=
  claim_C10 (demoDev [acceptInClass 1])
    ⟨.deviceToHost, .vendor, .device, 0, 0, 0, 64⟩ 4
    (0xde :: 0xad :: 0xbe :: 0xef :: List.replicate 124 0)
    [ClassCall.controlIn 1] rfl (by decide) (by decide) (by decide)

end Usb
